import Mathlib

/-!
The openaiserver program: the completion handler and the model provisioner

A shallow embedding of `main.go`.  The program is a thin HTTP front-end over
two subprocess calls, so the embedding makes the outside world explicit:

* the operating system is a record `OS` (environment lookup, the environment
  list, the search for an executable, and the run of a started process);
* Go's `os/exec` stands between the program and the operating system: the
  program hands it a `Cmd`, and `OS.start` says which `Process`, if any, it
  starts for that `Cmd` (on a Unix system);
* every function returns, next to its Go result, the list of `Event`s it
  performed (lines printed, log lines, commands handed to `os/exec`,
  processes started, the listening call);
* the JSON binding of the request body belongs to the HTTP framework and is a
  parameter of the handler.

Go `string`s are modelled as Lean `String`s (sequences of Unicode code points,
that is, well-formed UTF-8 text); `int` and `int64` are `Int`; `float64` is
carried as its bit pattern because the program never computes with it.
-/

namespace OpenAIServer

/-! ## Data model -/

/-- A Go `error` value, identified by the message its `Error()` method gives. -/
structure GoError where
  msg : String
deriving DecidableEq, Repr

deriving instance DecidableEq for Except

/-- A Go `float64`, carried as its IEEE-754 binary64 bit pattern. -/
structure Float64 where
  bits : Nat
deriving DecidableEq, Repr

/-- OpenAI-compatible request structure (`type OpenAIRequest struct`). -/
structure OpenAIRequest where
  Model : String
  Prompt : String
  MaxTokens : Int
  Temperature : Float64
deriving DecidableEq, Repr

/-- One element of `OpenAIResponse.Choices`. -/
structure Choice where
  Text : String
  Index : Int
  FinishReason : String
deriving DecidableEq, Repr

/-- The `Usage` member of `OpenAIResponse`; the defaults are Go's zero values. -/
structure Usage where
  PromptTokens : Int := 0
  CompletionTokens : Int := 0
  TotalTokens : Int := 0
deriving DecidableEq, Repr

/-- OpenAI-compatible response structure (`type OpenAIResponse struct`).
A field left out of a composite literal takes Go's zero value. -/
structure OpenAIResponse where
  ID : String := ""
  Object : String := ""
  Created : Int := 0
  Model : String := ""
  Choices : List Choice := []
  Usage : Usage := {}
deriving DecidableEq, Repr

/-! ## The outside world -/

/-- An `exec.Cmd` as `exec.Command(name, arg...)` builds it: the program name,
the arguments that follow it, and `Env` (`none` is Go's nil: inherit). -/
structure Cmd where
  Name : String
  Args : List String
  Env : Option (List String)
deriving DecidableEq, Repr

/-- `exec.Command(name, arg...)`.  The search for the executable that Go makes
here and keeps in the `Cmd` is made in `OS.start`: the program changes nothing
between building a command and running it. -/
def Command (name : String) (arg : List String) : Cmd :=
  { Name := name, Args := arg, Env := none }

/-- A process as the kernel is asked to start it: the executable, the argument
vector (the program name first) and the environment. -/
structure Process where
  Path : String
  Argv : List String
  Envv : List String
deriving DecidableEq, Repr

/-- The operating system as the program sees it: `os.Getenv`, `os.Environ`,
`exec.LookPath`, and the run of a started process to its end, which gives the
captured output and the error (`none` is nil: exit status zero). -/
structure OS where
  Getenv : String → String
  Environ : List String
  LookPath : String → Except GoError String
  Run : Process → String × Option GoError

/-- What the program does, in order.  `combinedOutput` is the call of
`CombinedOutput` on a command, whether or not a process starts; `start` is the
process `os/exec` then starts. -/
inductive Event where
  | println (operands : List String)
  | logPrintf (line : String)
  | logFatal (line : String)
  | combinedOutput (cmd : Cmd)
  | start (p : Process)
  | run (addr : String)
deriving DecidableEq, Repr

/-- The commands a trace handed to `os/exec` (the calls of `CombinedOutput`),
in order.  Which of them became a process is what `started` tells. -/
def invocations : List Event → List Cmd
  | [] => []
  | Event.combinedOutput c :: t => c :: invocations t
  | _ :: t => invocations t

/-- The processes a trace started, in order. -/
def started : List Event → List Process
  | [] => []
  | Event.start p :: t => p :: started t
  | _ :: t => started t

/-- The addresses a trace started listening on, in order. -/
def listens : List Event → List String
  | [] => []
  | Event.run a :: t => a :: listens t
  | _ :: t => listens t

/-! ## Go library functions used by the program -/

/-- Go's `unicode.IsSpace`: the Latin-1 spaces, then the `White_Space` table. -/
def isSpace (r : Char) : Bool :=
  let n := r.toNat
  if n ≤ 0xFF then
    n == 0x09 || n == 0x0A || n == 0x0B || n == 0x0C || n == 0x0D || n == 0x20 ||
      n == 0x85 || n == 0xA0
  else
    n == 0x1680 || (0x2000 ≤ n && n ≤ 0x200A) || n == 0x2028 || n == 0x2029 ||
      n == 0x202F || n == 0x205F || n == 0x3000

/-- Go's `strings.TrimSpace`: the string without its leading and trailing
white space, as `unicode.IsSpace` defines it. -/
def TrimSpace (s : String) : String :=
  ⟨(s.data.dropWhile isSpace).rdropWhile isSpace⟩

/-- Whether a string holds a NUL character, which no argument or environment
entry of a process may hold. -/
def hasNUL (s : String) : Bool :=
  s.data.contains (Char.ofNat 0)

/-- The key `dedupEnv` of `os/exec` reads in an environment entry: the text
before the first "=", where an "=" in first position belongs to the key;
`none` for an entry that is not of the form key=value. -/
def envKey (kv : String) : Option String :=
  match kv.data with
  | '=' :: rest =>
    if rest.contains '=' then some ⟨'=' :: rest.takeWhile (fun c => c != '=')⟩ else some ""
  | cs => if cs.contains '=' then some ⟨cs.takeWhile (fun c => c != '=')⟩ else none

/-- The loop of `dedupEnv`, which walks the environment from its last entry
(the argument is the reversed list) with the keys seen so far: an entry with a
NUL is dropped and reported, an entry whose key was seen is dropped, an empty
entry is dropped, every other entry is kept. -/
def dedupEnvRev : List String → List String → List String × Bool
  | [], _ => ([], false)
  | kv :: rest, saw =>
    if hasNUL kv then ((dedupEnvRev rest saw).1, true)
    else
      match envKey kv with
      | none =>
        if kv = "" then dedupEnvRev rest saw
        else (kv :: (dedupEnvRev rest saw).1, (dedupEnvRev rest saw).2)
      | some k =>
        if saw.contains k then dedupEnvRev rest saw
        else (kv :: (dedupEnvRev rest (k :: saw)).1, (dedupEnvRev rest (k :: saw)).2)

/-- The function `dedupEnv` of `os/exec`: the environment with, for each key,
only the last entry kept, in the original order, and an error when an entry
held a NUL. -/
def dedupEnv (env : List String) : List String × Option GoError :=
  ((dedupEnvRev env.reverse []).1.reverse,
    if (dedupEnvRev env.reverse []).2 then
      some ⟨"exec: environment variable contains NUL"⟩
    else none)

/-- The process `os/exec` starts for a command, or the error it returns
without starting one: the program name is searched with `exec.LookPath` (both
names of this program are bare names), the environment (`os.Environ` when
`Env` is nil) goes through `dedupEnv`, and a NUL in the path or in an argument
is refused with EINVAL before any process exists. -/
def OS.start (os : OS) (c : Cmd) : Except GoError Process :=
  match os.LookPath c.Name with
  | Except.error e => Except.error e
  | Except.ok path =>
    match (dedupEnv (c.Env.getD os.Environ)).2 with
    | some e => Except.error e
    | none =>
      if hasNUL path || (c.Name :: c.Args).any hasNUL then
        Except.error ⟨"fork/exec " ++ path ++ ": invalid argument"⟩
      else
        Except.ok
          { Path := path, Argv := c.Name :: c.Args,
            Envv := (dedupEnv (c.Env.getD os.Environ)).1 }

/-- The method `(*Cmd).CombinedOutput` with its events: when no process starts
the output is empty and the error is that of the start. -/
def OS.execCmd (os : OS) (c : Cmd) : List Event × (String × Option GoError) :=
  match os.start c with
  | Except.error e => ([Event.combinedOutput c], ("", some e))
  | Except.ok p => ([Event.combinedOutput c, Event.start p], os.Run p)

/-- The result of `(*Cmd).CombinedOutput`: the captured output and the error. -/
def OS.CombinedOutput (os : OS) (c : Cmd) : String × Option GoError :=
  (os.execCmd c).2

/-- The status codes of `net/http` the handler uses. -/
def StatusOK : Nat := 200

/-- The value of `http.StatusBadRequest`. -/
def StatusBadRequest : Nat := 400

/-- The value of `http.StatusInternalServerError`. -/
def StatusInternalServerError : Nat := 500

/-- The object handed to `c.JSON`: a `gin.H` map or the response structure. -/
inductive JSONBody where
  | H (fields : List (String × String))
  | response (r : OpenAIResponse)
deriving DecidableEq, Repr

/-- What `c.JSON(code, obj)` sends to the caller. -/
structure HTTPResponse where
  code : Nat
  obj : JSONBody
deriving DecidableEq, Repr

/-! ## The program -/

/-- Load a Hugging Face model (runs as a subprocess): `loadModel`. -/
def loadModel (os : OS) (modelName : String) : List Event × Option GoError :=
  let t0 := [Event.println ["Downloading model:", modelName]]
  let token := os.Getenv "HUGGINGFACE_TOKEN"
  if token = "" then
    (t0, some ⟨"HUGGINGFACE_TOKEN is not set"⟩)
  else
    let t1 := t0 ++ [Event.println ["Downloading model:", modelName]]
    let cmd : Cmd :=
      { Command "huggingface-cli"
          ["download", modelName, "--local-dir", "./models/" ++ modelName] with
        Env := some (os.Environ ++ ["HF_TOKEN=" ++ token]) }
    let r := os.execCmd cmd
    match r.2.2 with
    | some err =>
      (t1 ++ r.1 ++ [Event.println ["Error downloading model:", r.2.1]], some err)
    | none =>
      (t1 ++ r.1 ++ [Event.println ["Model downloaded successfully"]], none)

/-- Generate text using the model (calls the inference tool): `generateText`. -/
def generateText (os : OS) (prompt : String) (modelName : String) :
    List Event × Except GoError String :=
  let cmd := Command "llama-cli"
    ["-m", "./models/" ++ modelName ++ "/tiny-vicuna-1b.q2_k.gguf", "-p", prompt,
      "--temp", "0.7", "-n", "256"]
  let r := os.execCmd cmd
  match r.2.2 with
  | some err => (r.1 ++ [Event.println ["Error generating text:", r.2.1]], Except.error err)
  | none => (r.1, Except.ok (TrimSpace r.2.1))

/-- The handler `main` registers for `POST /v1/completions`.  `ShouldBindJSON`
is the framework's binding of the request body to an `OpenAIRequest`. -/
def completionsHandler (os : OS) (ShouldBindJSON : String → Except GoError OpenAIRequest)
    (body : String) : List Event × HTTPResponse :=
  match ShouldBindJSON body with
  | Except.error _ =>
    ([], { code := StatusBadRequest, obj := JSONBody.H [("error", "Invalid request")] })
  | Except.ok request =>
    let g := generateText os request.Prompt request.Model
    match g.2 with
    | Except.error err =>
      (g.1 ++ [Event.logPrintf ("Error generating text: " ++ err.msg)],
        { code := StatusInternalServerError,
          obj := JSONBody.H [("error", "Failed to generate text")] })
    | Except.ok responseText =>
      let response : OpenAIResponse :=
        { ID := "chatcmpl-123"
          Object := "text_completion"
          Created := 1234567890
          Model := request.Model
          Choices := [{ Text := responseText, Index := 0, FinishReason := "stop" }] }
      (g.1, { code := StatusOK, obj := JSONBody.response response })

/-- The startup sequence of `main`: provision the model, then serve.
`log.Fatal` ends the process, so nothing follows it in the trace. -/
def main (os : OS) : List Event :=
  let modelName := "afrideva/Tiny-Vicuna-1B-GGUF"
  let l := loadModel os modelName
  match l.2 with
  | some err => l.1 ++ [Event.logFatal ("Failed to load model:" ++ err.msg)]
  | none =>
    l.1 ++ [Event.println ["Starting OpenAI-compatible API on port 8000..."], Event.run ":8000"]

/-- The command line `generateText` builds for a prompt and a model name. -/
def inferenceCmd (prompt : String) (modelName : String) : Cmd :=
  Command "llama-cli"
    ["-m", "./models/" ++ modelName ++ "/tiny-vicuna-1b.q2_k.gguf", "-p", prompt,
      "--temp", "0.7", "-n", "256"]

/-- The command line `loadModel` builds for a model name and a credential. -/
def downloadCmd (os : OS) (modelName : String) (token : String) : Cmd :=
  { Name := "huggingface-cli"
    Args := ["download", modelName, "--local-dir", "./models/" ++ modelName]
    Env := some (os.Environ ++ ["HF_TOKEN=" ++ token]) }

/-! ## Concrete worlds and requests -/

/-- A request for the provisioned model. -/
def requestA : OpenAIRequest :=
  { Model := "afrideva/Tiny-Vicuna-1B-GGUF", Prompt := "Say hello", MaxTokens := 16,
    Temperature := ⟨0⟩ }

/-- The same model and prompt as `requestA`, other sampling fields
(`max_tokens` 512, `temperature` 1.5). -/
def requestB : OpenAIRequest :=
  { Model := "afrideva/Tiny-Vicuna-1B-GGUF", Prompt := "Say hello", MaxTokens := 512,
    Temperature := ⟨0x3FF8000000000000⟩ }

/-- The same prompt as `requestA`, another model name. -/
def requestC : OpenAIRequest :=
  { Model := "TheBloke/Mistral-7B-v0.1-GGUF", Prompt := "Say hello", MaxTokens := 16,
    Temperature := ⟨0⟩ }

/-- A binding that accepts three bodies and rejects every other one. -/
def bindSample (body : String) : Except GoError OpenAIRequest :=
  if body = "A" then Except.ok requestA
  else if body = "B" then Except.ok requestB
  else if body = "C" then Except.ok requestC
  else Except.error ⟨"invalid character"⟩

/-- A request whose prompt holds a NUL character (JSON "a\u0000b"). -/
def requestNUL : OpenAIRequest :=
  { Model := "afrideva/Tiny-Vicuna-1B-GGUF", Prompt := "a\x00b", MaxTokens := 16,
    Temperature := ⟨0⟩ }

/-- As `bindSample`, and the body "N" binds to `requestNUL`. -/
def bindNUL (body : String) : Except GoError OpenAIRequest :=
  if body = "N" then Except.ok requestNUL else bindSample body

/-- The credential is set, both tools are installed and every process exits
zero. -/
def osGood : OS :=
  { Getenv := fun k => if k = "HUGGINGFACE_TOKEN" then "hf_secret" else ""
    Environ := ["PATH=/usr/bin", "HUGGINGFACE_TOKEN=hf_secret"]
    LookPath := fun name => Except.ok ("/usr/bin/" ++ name)
    Run := fun p => if p.Path = "/usr/bin/llama-cli" then ("  hello\n", none) else ("", none) }

/-- The credential is set and every process fails. -/
def osFailing : OS :=
  { Getenv := fun k => if k = "HUGGINGFACE_TOKEN" then "hf_secret" else ""
    Environ := ["PATH=/usr/bin", "HUGGINGFACE_TOKEN=hf_secret"]
    LookPath := fun name => Except.ok ("/usr/bin/" ++ name)
    Run := fun _ => ("error: failed to load model\n", some ⟨"exit status 1"⟩) }

/-- As `osFailing`, with another captured output and another error value. -/
def osKilled : OS :=
  { Getenv := fun k => if k = "HUGGINGFACE_TOKEN" then "hf_secret" else ""
    Environ := ["PATH=/usr/bin", "HUGGINGFACE_TOKEN=hf_secret"]
    LookPath := fun name => Except.ok ("/usr/bin/" ++ name)
    Run := fun _ => ("/home/user/.cache/secret", some ⟨"signal: killed"⟩) }

/-- The credential is not in the environment. -/
def osNoToken : OS :=
  { Getenv := fun _ => ""
    Environ := ["PATH=/usr/bin"]
    LookPath := fun name => Except.ok ("/usr/bin/" ++ name)
    Run := fun _ => ("", none) }

/-- As `osGood`, with an `HF_TOKEN` entry already in the environment. -/
def osDup : OS :=
  { Getenv := fun k =>
      if k = "HUGGINGFACE_TOKEN" then "hf_secret" else if k = "HF_TOKEN" then "old" else ""
    Environ := ["PATH=/usr/bin", "HF_TOKEN=old", "HUGGINGFACE_TOKEN=hf_secret"]
    LookPath := fun name => Except.ok ("/usr/bin/" ++ name)
    Run := fun _ => ("", none) }

/-! ## Lemmas on `TrimSpace` -/

theorem trimSpace_data (s : String) :
    (TrimSpace s).data = (s.data.dropWhile isSpace).rdropWhile isSpace := rfl

theorem rdropWhile_append_rtakeWhile (p : Char → Bool) (l : List Char) :
    l.rdropWhile p ++ l.rtakeWhile p = l := by
  have h : (l.reverse.takeWhile p ++ l.reverse.dropWhile p).reverse = l := by
    rw [List.takeWhile_append_dropWhile, List.reverse_reverse]
  rw [List.reverse_append] at h
  exact h

theorem trimSpace_decompose (s : String) :
    ∃ pre post : List Char, s.data = pre ++ (TrimSpace s).data ++ post ∧
      (∀ c ∈ pre, isSpace c = true) ∧ (∀ c ∈ post, isSpace c = true) := by
  refine ⟨s.data.takeWhile isSpace, (s.data.dropWhile isSpace).rtakeWhile isSpace, ?_, ?_, ?_⟩
  · rw [trimSpace_data, List.append_assoc, rdropWhile_append_rtakeWhile,
      List.takeWhile_append_dropWhile]
  · intro c hc
    exact List.mem_takeWhile_imp hc
  · intro c hc
    exact List.mem_rtakeWhile_imp hc

theorem trimSpace_head_not_space (s : String) (c : Char)
    (h : (TrimSpace s).data.head? = some c) : isSpace c = false := by
  rw [trimSpace_data] at h
  obtain ⟨t, ht⟩ := List.rdropWhile_prefix isSpace (l := s.data.dropWhile isSpace)
  cases hr : (s.data.dropWhile isSpace).rdropWhile isSpace with
  | nil => rw [hr] at h; simp at h
  | cons a r =>
    rw [hr] at h ht
    simp at h
    subst h
    have hne : s.data.dropWhile isSpace ≠ [] := by
      intro h0
      rw [h0] at ht
      simp at ht
    have hnot := List.head_dropWhile_not isSpace s.data hne
    have hhead : (s.data.dropWhile isSpace).head hne = a := by
      have : ∀ (l : List Char) (hl : l ≠ []), a :: r ++ t = l → l.head hl = a := by
        intro l hl e
        subst e
        rfl
      exact this _ hne ht
    rw [hhead] at hnot
    simpa using hnot

theorem trimSpace_last_not_space (s : String) (c : Char)
    (h : (TrimSpace s).data.getLast? = some c) : isSpace c = false := by
  rw [trimSpace_data] at h
  have hne : (s.data.dropWhile isSpace).rdropWhile isSpace ≠ [] := by
    intro h0
    rw [h0] at h
    simp at h
  have hnot := List.rdropWhile_last_not isSpace (s.data.dropWhile isSpace) hne
  rw [List.getLast?_eq_getLast _ hne] at h
  simp at h
  rw [h] at hnot
  simpa using hnot

/-! ## Lemmas on traces and on `os/exec` -/

theorem listens_append (t u : List Event) : listens (t ++ u) = listens t ++ listens u := by
  induction t with
  | nil => rfl
  | cons a t ih => cases a <;> simp [listens, ih]

theorem invocations_append (t u : List Event) :
    invocations (t ++ u) = invocations t ++ invocations u := by
  induction t with
  | nil => rfl
  | cons a t ih => cases a <;> simp [invocations, ih]

theorem started_append (t u : List Event) : started (t ++ u) = started t ++ started u := by
  induction t with
  | nil => rfl
  | cons a t ih => cases a <;> simp [started, ih]

theorem execCmd_invocations (os : OS) (c : Cmd) : invocations (os.execCmd c).1 = [c] := by
  unfold OS.execCmd
  cases os.start c <;> rfl

theorem execCmd_listens (os : OS) (c : Cmd) : listens (os.execCmd c).1 = [] := by
  unfold OS.execCmd
  cases os.start c <;> rfl

theorem execCmd_started_ok (os : OS) (c : Cmd) (p : Process) (h : os.start c = Except.ok p) :
    started (os.execCmd c).1 = [p] := by
  simp only [OS.execCmd, h]
  rfl

theorem execCmd_started_error (os : OS) (c : Cmd) (e : GoError)
    (h : os.start c = Except.error e) : started (os.execCmd c).1 = [] := by
  simp only [OS.execCmd, h]
  rfl

theorem execCmd_started_mem (os : OS) (c : Cmd) (p : Process)
    (h : p ∈ started (os.execCmd c).1) : os.start c = Except.ok p := by
  cases hs : os.start c with
  | error e =>
    rw [execCmd_started_error os c e hs] at h
    simp at h
  | ok q =>
    rw [execCmd_started_ok os c q hs, List.mem_singleton] at h
    rw [h]

theorem start_ok (os : OS) (c : Cmd) (p : Process) (h : os.start c = Except.ok p) :
    os.LookPath c.Name = Except.ok p.Path ∧
      (dedupEnv (c.Env.getD os.Environ)).2 = none ∧
      (hasNUL p.Path || (c.Name :: c.Args).any hasNUL) = false ∧
      p.Argv = c.Name :: c.Args ∧ p.Envv = (dedupEnv (c.Env.getD os.Environ)).1 := by
  unfold OS.start at h
  cases hl : os.LookPath c.Name with
  | error e => simp [hl] at h
  | ok path =>
    cases hd : (dedupEnv (c.Env.getD os.Environ)).2 with
    | some e => simp [hl, hd] at h
    | none =>
      cases hn : (hasNUL path || (c.Name :: c.Args).any hasNUL) with
      | true =>
        simp only [hl, hd, hn] at h
        simp at h
      | false =>
        simp only [hl, hd, hn] at h
        simp only [Bool.false_eq_true, if_false, Except.ok.injEq] at h
        subst h
        exact ⟨rfl, rfl, hn, rfl, rfl⟩

theorem start_of_ok (os : OS) (c : Cmd) (path : String)
    (hl : os.LookPath c.Name = Except.ok path)
    (hd : (dedupEnv (c.Env.getD os.Environ)).2 = none)
    (hn : (hasNUL path || (c.Name :: c.Args).any hasNUL) = false) :
    os.start c = Except.ok
      { Path := path, Argv := c.Name :: c.Args,
        Envv := (dedupEnv (c.Env.getD os.Environ)).1 } := by
  unfold OS.start
  simp only [hl, hd, hn]
  simp

theorem hasNUL_append (a b : String) : hasNUL (a ++ b) = (hasNUL a || hasNUL b) := by
  simp only [hasNUL, String.data_append]
  induction a.data with
  | nil => simp
  | cons x xs ih =>
    simp only [List.cons_append, List.contains_cons, ih, Bool.or_assoc]

/-! ## Lemmas on `dedupEnv` -/

theorem dedupEnvRev_snd (l saw : List String) : (dedupEnvRev l saw).2 = l.any hasNUL := by
  induction l generalizing saw with
  | nil => rfl
  | cons kv rest ih =>
    rw [dedupEnvRev]
    cases hn : hasNUL kv with
    | true => simp [hn]
    | false =>
      simp only [Bool.false_eq_true, if_false, List.any_cons, hn, Bool.false_or]
      cases envKey kv with
      | none =>
        by_cases he : kv = ""
        · simp only [he, if_true]
          exact ih saw
        · simp only [he, if_false]
          exact ih saw
      | some key =>
        cases hc : saw.contains key with
        | true =>
          simp only [hc, if_true]
          exact ih saw
        | false =>
          simp only [hc, Bool.false_eq_true, if_false]
          exact ih (key :: saw)

theorem dedupEnv_snd (env : List String) :
    (dedupEnv env).2 = none ↔ env.any hasNUL = false := by
  unfold dedupEnv
  rw [dedupEnvRev_snd, List.any_reverse]
  cases env.any hasNUL <;> simp

theorem dedupEnvRev_sublist (l saw : List String) : (dedupEnvRev l saw).1.Sublist l := by
  induction l generalizing saw with
  | nil => exact List.Sublist.slnil
  | cons kv rest ih =>
    rw [dedupEnvRev]
    cases hn : hasNUL kv with
    | true => exact List.Sublist.cons _ (ih saw)
    | false =>
      simp only [Bool.false_eq_true, if_false]
      cases envKey kv with
      | none =>
        by_cases he : kv = ""
        · simp only [he, if_true]
          exact List.Sublist.cons _ (ih saw)
        · simp only [he, if_false]
          exact List.Sublist.cons₂ _ (ih saw)
      | some key =>
        cases hc : saw.contains key with
        | true =>
          simp only [hc, if_true]
          exact List.Sublist.cons _ (ih saw)
        | false =>
          simp only [hc, Bool.false_eq_true, if_false]
          exact List.Sublist.cons₂ _ (ih (key :: saw))

theorem dedupEnvRev_key (l saw : List String) (e k : String)
    (h : e ∈ (dedupEnvRev l saw).1) (hk : envKey e = some k) : saw.contains k = false := by
  induction l generalizing saw with
  | nil => simp [dedupEnvRev] at h
  | cons kv rest ih =>
    rw [dedupEnvRev] at h
    cases hn : hasNUL kv with
    | true =>
      simp only [hn, if_true] at h
      exact ih saw h
    | false =>
      simp only [hn, Bool.false_eq_true, if_false] at h
      cases hkv : envKey kv with
      | none =>
        simp only [hkv] at h
        by_cases he : kv = ""
        · simp only [he, if_true] at h
          exact ih saw h
        · simp only [he, if_false, List.mem_cons] at h
          rcases h with h | h
          · rw [h, hkv] at hk
            cases hk
          · exact ih saw h
      | some key =>
        simp only [hkv] at h
        cases hc : saw.contains key with
        | true =>
          simp only [hc, if_true] at h
          exact ih saw h
        | false =>
          simp only [hc, Bool.false_eq_true, if_false, List.mem_cons] at h
          rcases h with h | h
          · rw [h, hkv] at hk
            cases hk
            exact hc
          · have := ih (key :: saw) h
            simp only [List.contains_cons, Bool.or_eq_false_iff] at this
            exact this.2

theorem dedupEnvRev_saw (k : String) (l saw saw' : List String)
    (hl : ∀ kv ∈ l, envKey kv ≠ some k)
    (hs : ∀ x, x ≠ k → saw.contains x = saw'.contains x) :
    dedupEnvRev l saw = dedupEnvRev l saw' := by
  induction l generalizing saw saw' with
  | nil => rfl
  | cons kv rest ih =>
    have hrest : ∀ e ∈ rest, envKey e ≠ some k := fun e he => hl e (List.mem_cons_of_mem _ he)
    rw [dedupEnvRev, dedupEnvRev, ih saw saw' hrest hs]
    cases hkv : envKey kv with
    | none => rfl
    | some key =>
      have hne : key ≠ k := by
        intro h
        exact hl kv (List.mem_cons_self _ _) (by rw [hkv, h])
      have hs' : ∀ x, x ≠ k → (key :: saw).contains x = (key :: saw').contains x := by
        intro x hx
        simp only [List.contains_cons, hs x hx]
      simp only [hs key hne, ih (key :: saw) (key :: saw') hrest hs']

theorem envKey_hf_token (t : String) : envKey ("HF_TOKEN=" ++ t) = some "HF_TOKEN" := by
  have hd : ("HF_TOKEN=" ++ t).data =
      'H' :: 'F' :: '_' :: 'T' :: 'O' :: 'K' :: 'E' :: 'N' :: '=' :: t.data := by
    rw [String.data_append]
    rfl
  unfold envKey
  rw [hd]
  simp [List.takeWhile]

theorem dedupEnv_append_entry (env : List String) (e k : String)
    (hn : hasNUL e = false) (hk : envKey e = some k) :
    (dedupEnv (env ++ [e])).1 = (dedupEnvRev env.reverse [k]).1.reverse ++ [e] := by
  unfold dedupEnv
  simp only [List.reverse_append, List.reverse_cons, List.reverse_nil, List.nil_append,
    List.singleton_append]
  rw [dedupEnvRev]
  simp [hn, hk]

/-! ## Lemmas on the program -/

theorem generateText_error (os : OS) (prompt modelName : String) (e : GoError)
    (h : (os.CombinedOutput (inferenceCmd prompt modelName)).2 = some e) :
    generateText os prompt modelName =
      ((os.execCmd (inferenceCmd prompt modelName)).1 ++
          [Event.println ["Error generating text:",
            (os.CombinedOutput (inferenceCmd prompt modelName)).1]],
        Except.error e) := by
  unfold OS.CombinedOutput inferenceCmd at h
  simp only [generateText, h, OS.CombinedOutput, inferenceCmd]

theorem generateText_ok (os : OS) (prompt modelName : String)
    (h : (os.CombinedOutput (inferenceCmd prompt modelName)).2 = none) :
    generateText os prompt modelName =
      ((os.execCmd (inferenceCmd prompt modelName)).1,
        Except.ok (TrimSpace (os.CombinedOutput (inferenceCmd prompt modelName)).1)) := by
  unfold OS.CombinedOutput inferenceCmd at h
  simp only [generateText, h, OS.CombinedOutput, inferenceCmd]

theorem generateText_invocations (os : OS) (prompt modelName : String) :
    invocations (generateText os prompt modelName).1 = [inferenceCmd prompt modelName] := by
  cases h : (os.CombinedOutput (inferenceCmd prompt modelName)).2 with
  | none =>
    rw [generateText_ok os prompt modelName h]
    exact execCmd_invocations os _
  | some e =>
    rw [generateText_error os prompt modelName e h, invocations_append, execCmd_invocations]
    rfl

theorem generateText_started (os : OS) (prompt modelName : String) :
    started (generateText os prompt modelName).1 =
      started (os.execCmd (inferenceCmd prompt modelName)).1 := by
  cases h : (os.CombinedOutput (inferenceCmd prompt modelName)).2 with
  | none => rw [generateText_ok os prompt modelName h]
  | some e =>
    rw [generateText_error os prompt modelName e h, started_append]
    simp [started]

theorem handler_bind_error (os : OS) (bind : String → Except GoError OpenAIRequest)
    (body : String) (e : GoError) (h : bind body = Except.error e) :
    completionsHandler os bind body =
      ([], { code := 400, obj := JSONBody.H [("error", "Invalid request")] }) := by
  simp only [completionsHandler, h, StatusBadRequest]

theorem handler_generate_error (os : OS) (bind : String → Except GoError OpenAIRequest)
    (body : String) (r : OpenAIRequest) (e : GoError) (hb : bind body = Except.ok r)
    (h : (os.CombinedOutput (inferenceCmd r.Prompt r.Model)).2 = some e) :
    completionsHandler os bind body =
      ((generateText os r.Prompt r.Model).1 ++
          [Event.logPrintf ("Error generating text: " ++ e.msg)],
        { code := 500, obj := JSONBody.H [("error", "Failed to generate text")] }) := by
  have hg := generateText_error os r.Prompt r.Model e h
  simp only [completionsHandler, hb, hg, StatusInternalServerError]

theorem handler_generate_ok (os : OS) (bind : String → Except GoError OpenAIRequest)
    (body : String) (r : OpenAIRequest) (hb : bind body = Except.ok r)
    (h : (os.CombinedOutput (inferenceCmd r.Prompt r.Model)).2 = none) :
    completionsHandler os bind body =
      ((generateText os r.Prompt r.Model).1,
        { code := 200,
          obj := JSONBody.response
            { ID := "chatcmpl-123", Object := "text_completion", Created := 1234567890,
              Model := r.Model,
              Choices := [{ Text := TrimSpace (os.CombinedOutput (inferenceCmd r.Prompt r.Model)).1,
                            Index := 0, FinishReason := "stop" }],
              Usage := { PromptTokens := 0, CompletionTokens := 0, TotalTokens := 0 } } }) := by
  have hg := generateText_ok os r.Prompt r.Model h
  simp only [completionsHandler, hb, hg, StatusOK]

theorem handler_invocations (os : OS) (bind : String → Except GoError OpenAIRequest)
    (body : String) (r : OpenAIRequest) (hb : bind body = Except.ok r) :
    invocations (completionsHandler os bind body).1 = [inferenceCmd r.Prompt r.Model] := by
  cases h : (os.CombinedOutput (inferenceCmd r.Prompt r.Model)).2 with
  | none =>
    rw [handler_generate_ok os bind body r hb h]
    exact generateText_invocations os r.Prompt r.Model
  | some e =>
    rw [handler_generate_error os bind body r e hb h]
    rw [invocations_append, generateText_invocations os r.Prompt r.Model]
    rfl

theorem handler_started (os : OS) (bind : String → Except GoError OpenAIRequest)
    (body : String) (r : OpenAIRequest) (hb : bind body = Except.ok r) :
    started (completionsHandler os bind body).1 =
      started (os.execCmd (inferenceCmd r.Prompt r.Model)).1 := by
  cases h : (os.CombinedOutput (inferenceCmd r.Prompt r.Model)).2 with
  | none =>
    rw [handler_generate_ok os bind body r hb h]
    exact generateText_started os r.Prompt r.Model
  | some e =>
    rw [handler_generate_error os bind body r e hb h]
    rw [started_append, generateText_started os r.Prompt r.Model]
    simp [started]

/-- A response with status 200 comes from a bound request whose subprocess
exited zero. -/
theorem handler_code_ok (os : OS) (bind : String → Except GoError OpenAIRequest)
    (body : String) (h : (completionsHandler os bind body).2.code = 200) :
    ∃ r, bind body = Except.ok r ∧
      (os.CombinedOutput (inferenceCmd r.Prompt r.Model)).2 = none := by
  cases hb : bind body with
  | error e =>
    rw [handler_bind_error os bind body e hb] at h
    simp at h
  | ok r =>
    cases hc : (os.CombinedOutput (inferenceCmd r.Prompt r.Model)).2 with
    | none => exact ⟨r, rfl, hc⟩
    | some e =>
      rw [handler_generate_error os bind body r e hb hc] at h
      simp at h

theorem models_path_injective (a b : String)
    (h : "./models/" ++ a ++ "/tiny-vicuna-1b.q2_k.gguf" =
      "./models/" ++ b ++ "/tiny-vicuna-1b.q2_k.gguf") : a = b := by
  have hd := congrArg String.data h
  simp only [String.data_append] at hd
  have h1 := List.append_cancel_right hd
  have h2 := List.append_cancel_left h1
  exact String.ext h2

theorem loadModel_no_token (os : OS) (modelName : String)
    (h : os.Getenv "HUGGINGFACE_TOKEN" = "") :
    loadModel os modelName =
      ([Event.println ["Downloading model:", modelName]],
        some ⟨"HUGGINGFACE_TOKEN is not set"⟩) := by
  simp only [loadModel, h, if_true]

theorem loadModel_download_error (os : OS) (modelName : String) (e : GoError)
    (h : os.Getenv "HUGGINGFACE_TOKEN" ≠ "")
    (hd : (os.CombinedOutput
      (downloadCmd os modelName (os.Getenv "HUGGINGFACE_TOKEN"))).2 = some e) :
    loadModel os modelName =
      ([Event.println ["Downloading model:", modelName],
        Event.println ["Downloading model:", modelName]] ++
        (os.execCmd (downloadCmd os modelName (os.Getenv "HUGGINGFACE_TOKEN"))).1 ++
        [Event.println ["Error downloading model:",
          (os.CombinedOutput (downloadCmd os modelName (os.Getenv "HUGGINGFACE_TOKEN"))).1]],
        some e) := by
  unfold OS.CombinedOutput downloadCmd at hd
  simp [loadModel, h, hd, downloadCmd, Command, OS.CombinedOutput]

theorem loadModel_download_ok (os : OS) (modelName : String)
    (h : os.Getenv "HUGGINGFACE_TOKEN" ≠ "")
    (hd : (os.CombinedOutput
      (downloadCmd os modelName (os.Getenv "HUGGINGFACE_TOKEN"))).2 = none) :
    loadModel os modelName =
      ([Event.println ["Downloading model:", modelName],
        Event.println ["Downloading model:", modelName]] ++
        (os.execCmd (downloadCmd os modelName (os.Getenv "HUGGINGFACE_TOKEN"))).1 ++
        [Event.println ["Model downloaded successfully"]],
        none) := by
  unfold OS.CombinedOutput downloadCmd at hd
  simp [loadModel, h, hd, downloadCmd, Command, OS.CombinedOutput]

theorem loadModel_invocations (os : OS) (modelName : String)
    (h : os.Getenv "HUGGINGFACE_TOKEN" ≠ "") :
    invocations (loadModel os modelName).1 =
      [downloadCmd os modelName (os.Getenv "HUGGINGFACE_TOKEN")] := by
  cases hd : (os.CombinedOutput
      (downloadCmd os modelName (os.Getenv "HUGGINGFACE_TOKEN"))).2 with
  | none =>
    rw [loadModel_download_ok os modelName h hd]
    simp only [invocations_append, execCmd_invocations]
    rfl
  | some e =>
    rw [loadModel_download_error os modelName e h hd]
    simp only [invocations_append, execCmd_invocations]
    rfl

theorem loadModel_started (os : OS) (modelName : String)
    (h : os.Getenv "HUGGINGFACE_TOKEN" ≠ "") :
    started (loadModel os modelName).1 =
      started (os.execCmd (downloadCmd os modelName (os.Getenv "HUGGINGFACE_TOKEN"))).1 := by
  cases hd : (os.CombinedOutput
      (downloadCmd os modelName (os.Getenv "HUGGINGFACE_TOKEN"))).2 with
  | none =>
    rw [loadModel_download_ok os modelName h hd]
    simp [started_append, started]
  | some e =>
    rw [loadModel_download_error os modelName e h hd]
    simp [started_append, started]

theorem loadModel_listens (os : OS) (modelName : String) :
    listens (loadModel os modelName).1 = [] := by
  by_cases h : os.Getenv "HUGGINGFACE_TOKEN" = ""
  · rw [loadModel_no_token os modelName h]
    rfl
  · cases hd : (os.CombinedOutput
        (downloadCmd os modelName (os.Getenv "HUGGINGFACE_TOKEN"))).2 with
    | none =>
      rw [loadModel_download_ok os modelName h hd]
      simp [listens_append, execCmd_listens, listens]
    | some e =>
      rw [loadModel_download_error os modelName e h hd]
      simp [listens_append, execCmd_listens, listens]

theorem downloadCmd_any_nul (os : OS) (m t : String) :
    ((downloadCmd os m t).Name :: (downloadCmd os m t).Args).any hasNUL = hasNUL m := by
  have h1 : hasNUL "huggingface-cli" = false := by decide
  have h2 : hasNUL "download" = false := by decide
  have h3 : hasNUL "--local-dir" = false := by decide
  have h4 : hasNUL "./models/" = false := by decide
  simp only [downloadCmd, List.any_cons, List.any_nil, hasNUL_append, h1, h2, h3, h4,
    Bool.false_or, Bool.or_false, Bool.or_self]

theorem inferenceCmd_any_nul (p m : String) :
    ((inferenceCmd p m).Name :: (inferenceCmd p m).Args).any hasNUL = (hasNUL m || hasNUL p) := by
  have h1 : hasNUL "llama-cli" = false := by decide
  have h2 : hasNUL "-m" = false := by decide
  have h3 : hasNUL "./models/" = false := by decide
  have h4 : hasNUL "/tiny-vicuna-1b.q2_k.gguf" = false := by decide
  have h5 : hasNUL "-p" = false := by decide
  have h6 : hasNUL "--temp" = false := by decide
  have h7 : hasNUL "0.7" = false := by decide
  have h8 : hasNUL "-n" = false := by decide
  have h9 : hasNUL "256" = false := by decide
  simp only [inferenceCmd, Command, List.any_cons, List.any_nil, hasNUL_append, h1, h2, h3, h4,
    h5, h6, h7, h8, h9, Bool.false_or, Bool.or_false]

theorem execCmd_started_cases (os : OS) (c : Cmd) :
    started (os.execCmd c).1 = [] ∨ ∃ p, started (os.execCmd c).1 = [p] := by
  cases hs : os.start c with
  | error e => exact Or.inl (execCmd_started_error os c e hs)
  | ok p => exact Or.inr ⟨p, execCmd_started_ok os c p hs⟩

theorem execCmd_started_iff (os : OS) (c : Cmd) :
    (∃ p, started (os.execCmd c).1 = [p]) ↔
      (∃ path, os.LookPath c.Name = Except.ok path ∧ hasNUL path = false) ∧
        (c.Name :: c.Args).any hasNUL = false ∧
        (c.Env.getD os.Environ).any hasNUL = false := by
  constructor
  · rintro ⟨p, hp⟩
    have hmem : p ∈ started (os.execCmd c).1 := by rw [hp]; exact List.mem_singleton.mpr rfl
    obtain ⟨hl, hd, hn, _, _⟩ := start_ok os c p (execCmd_started_mem os c p hmem)
    rw [Bool.or_eq_false_iff] at hn
    exact ⟨⟨p.Path, hl, hn.1⟩, hn.2, (dedupEnv_snd _).mp hd⟩
  · rintro ⟨⟨path, hl, hpath⟩, hargs, henv⟩
    have hn : (hasNUL path || (c.Name :: c.Args).any hasNUL) = false := by
      rw [hpath, hargs]
      rfl
    exact ⟨_, execCmd_started_ok os c _ (start_of_ok os c path hl ((dedupEnv_snd _).mpr henv) hn)⟩

theorem handler_started_argv (os : OS) (bind : String → Except GoError OpenAIRequest)
    (body : String) (r : OpenAIRequest) (hb : bind body = Except.ok r) (p : Process)
    (hp : p ∈ started (completionsHandler os bind body).1) :
    p.Argv = ["llama-cli", "-m", "./models/" ++ r.Model ++ "/tiny-vicuna-1b.q2_k.gguf", "-p",
      r.Prompt, "--temp", "0.7", "-n", "256"] := by
  rw [handler_started os bind body r hb] at hp
  exact (start_ok os _ p (execCmd_started_mem os _ p hp)).2.2.2.1

/-! ## The completion handler -/

/-- C1: when the request body does not bind to an `OpenAIRequest`, the handler
answers status 400 with the body `error: "Invalid request"`, whatever the body,
the binding error or the world are, and it performs no event at all, so the
inference subprocess is not run. -/
theorem C1_bind_failure_bad_request (os : OS)
    (bind : String → Except GoError OpenAIRequest) (body : String) (e : GoError)
    (h : bind body = Except.error e) :
    (completionsHandler os bind body).2 =
        { code := 400, obj := JSONBody.H [("error", "Invalid request")] } ∧
      (completionsHandler os bind body).1 = [] ∧
      invocations (completionsHandler os bind body).1 = [] := by
  rw [handler_bind_error os bind body e h]
  exact ⟨rfl, rfl, rfl⟩

theorem C1_bind_failure_bad_request_witness :
    bindSample "not json" = Except.error ⟨"invalid character"⟩ ∧
      (completionsHandler osGood bindSample "not json").2 =
        { code := 400, obj := JSONBody.H [("error", "Invalid request")] } ∧
      (completionsHandler osGood bindSample "not json").1 = [] ∧
      invocations (completionsHandler osGood bindSample "not json").1 = [] :=
  ⟨by decide,
    C1_bind_failure_bad_request osGood bindSample "not json" ⟨"invalid character"⟩ (by decide)⟩

/-- C2: when the body binds and the inference subprocess returns an error, the
handler answers status 500 with the body `error: "Failed to generate text"`;
two failing runs, whatever their captured outputs and error values, send the
same response. -/
theorem C2_subprocess_failure_generic_500 (os₁ os₂ : OS)
    (bind₁ bind₂ : String → Except GoError OpenAIRequest) (body₁ body₂ : String)
    (r₁ r₂ : OpenAIRequest) (e₁ e₂ : GoError)
    (hb₁ : bind₁ body₁ = Except.ok r₁) (hb₂ : bind₂ body₂ = Except.ok r₂)
    (hf₁ : (os₁.CombinedOutput (inferenceCmd r₁.Prompt r₁.Model)).2 = some e₁)
    (hf₂ : (os₂.CombinedOutput (inferenceCmd r₂.Prompt r₂.Model)).2 = some e₂) :
    (completionsHandler os₁ bind₁ body₁).2 =
        { code := 500, obj := JSONBody.H [("error", "Failed to generate text")] } ∧
      (completionsHandler os₂ bind₂ body₂).2 = (completionsHandler os₁ bind₁ body₁).2 := by
  rw [handler_generate_error os₁ bind₁ body₁ r₁ e₁ hb₁ hf₁,
    handler_generate_error os₂ bind₂ body₂ r₂ e₂ hb₂ hf₂]
  exact ⟨rfl, rfl⟩

theorem C2_subprocess_failure_generic_500_witness :
    osFailing.CombinedOutput (inferenceCmd requestA.Prompt requestA.Model) ≠
        osKilled.CombinedOutput (inferenceCmd requestA.Prompt requestA.Model) ∧
      (completionsHandler osFailing bindSample "A").2 =
        { code := 500, obj := JSONBody.H [("error", "Failed to generate text")] } ∧
      (completionsHandler osKilled bindSample "A").2 =
        (completionsHandler osFailing bindSample "A").2 :=
  ⟨by decide,
    C2_subprocess_failure_generic_500 osFailing osKilled bindSample bindSample "A" "A"
      requestA requestA ⟨"exit status 1"⟩ ⟨"signal: killed"⟩
      (by decide) (by decide) (by decide) (by decide)⟩

/-- C3: when the body binds and the inference subprocess exits zero with
captured output `s`, the handler answers status 200 with an envelope whose
choices list is the single element with text `TrimSpace s`, index 0 and finish
reason "stop".  `TrimSpace s` is `s` without a leading and a trailing run of
white space, it neither starts nor ends with a white-space character, and the
output "  hello\n" gives "hello". -/
theorem C3_success_envelope_trimmed (os : OS)
    (bind : String → Except GoError OpenAIRequest) (body : String) (r : OpenAIRequest)
    (s : String) (hb : bind body = Except.ok r)
    (hs : os.CombinedOutput (inferenceCmd r.Prompt r.Model) = (s, none)) :
    (∃ env : OpenAIResponse,
        (completionsHandler os bind body).2 = { code := 200, obj := JSONBody.response env } ∧
        env.Choices.length = 1 ∧
        env.Choices = [{ Text := TrimSpace s, Index := 0, FinishReason := "stop" }]) ∧
      (∃ pre post : List Char, s.data = pre ++ (TrimSpace s).data ++ post ∧
        (∀ c ∈ pre, isSpace c = true) ∧ (∀ c ∈ post, isSpace c = true)) ∧
      (∀ c, (TrimSpace s).data.head? = some c → isSpace c = false) ∧
      (∀ c, (TrimSpace s).data.getLast? = some c → isSpace c = false) ∧
      TrimSpace "  hello\n" = "hello" := by
  have h2 : (os.CombinedOutput (inferenceCmd r.Prompt r.Model)).2 = none := by rw [hs]
  have h1 : (os.CombinedOutput (inferenceCmd r.Prompt r.Model)).1 = s := by rw [hs]
  refine ⟨?_, trimSpace_decompose s, trimSpace_head_not_space s, trimSpace_last_not_space s,
    by decide⟩
  rw [handler_generate_ok os bind body r hb h2, h1]
  exact ⟨_, rfl, rfl, rfl⟩

theorem C3_success_envelope_trimmed_witness :
    (∃ env : OpenAIResponse,
        (completionsHandler osGood bindSample "A").2 =
          { code := 200, obj := JSONBody.response env } ∧
        env.Choices.length = 1 ∧
        env.Choices = [{ Text := TrimSpace "  hello\n", Index := 0, FinishReason := "stop" }]) ∧
      (∃ pre post : List Char,
        ("  hello\n" : String).data = pre ++ (TrimSpace "  hello\n").data ++ post ∧
        (∀ c ∈ pre, isSpace c = true) ∧ (∀ c ∈ post, isSpace c = true)) ∧
      (∀ c, (TrimSpace "  hello\n").data.head? = some c → isSpace c = false) ∧
      (∀ c, (TrimSpace "  hello\n").data.getLast? = some c → isSpace c = false) ∧
      TrimSpace "  hello\n" = "hello" :=
  C3_success_envelope_trimmed osGood bindSample "A" requestA "  hello\n" (by decide) (by decide)

/-- C4, as stated, fails: two well-formed requests that differ only in their
model field pass different values after "-m" to the inference subprocess, in
the command handed over and in the process started. -/
theorem C4_model_path_counterexample :
    bindSample "A" = Except.ok requestA ∧ bindSample "C" = Except.ok requestC ∧
      requestA.Model ≠ requestC.Model ∧
      (invocations (completionsHandler osGood bindSample "A").1).map
          (fun c => (c.Args[0]?, c.Args[1]?)) =
        [(some "-m", some "./models/afrideva/Tiny-Vicuna-1B-GGUF/tiny-vicuna-1b.q2_k.gguf")] ∧
      (invocations (completionsHandler osGood bindSample "C").1).map
          (fun c => (c.Args[0]?, c.Args[1]?)) =
        [(some "-m", some "./models/TheBloke/Mistral-7B-v0.1-GGUF/tiny-vicuna-1b.q2_k.gguf")] ∧
      (invocations (completionsHandler osGood bindSample "A").1).map (fun c => c.Args[1]?) ≠
        (invocations (completionsHandler osGood bindSample "C").1).map (fun c => c.Args[1]?) ∧
      (started (completionsHandler osGood bindSample "A").1).map
          (fun p => (p.Argv[1]?, p.Argv[2]?)) =
        [(some "-m", some "./models/afrideva/Tiny-Vicuna-1B-GGUF/tiny-vicuna-1b.q2_k.gguf")] ∧
      (started (completionsHandler osGood bindSample "C").1).map
          (fun p => (p.Argv[1]?, p.Argv[2]?)) =
        [(some "-m", some "./models/TheBloke/Mistral-7B-v0.1-GGUF/tiny-vicuna-1b.q2_k.gguf")] := by
  decide

/-- C4, amended: the value that follows "-m" is built from the request's model
field, "./models/" ++ model ++ "/tiny-vicuna-1b.q2_k.gguf" (only the file name
is fixed), in the command handed to `os/exec` and in every process started, so
two well-formed requests pass the same model path exactly when their model
fields are equal; the model field is also what a completion envelope carries
as its model. -/
theorem C4_model_path_from_request (os₁ os₂ : OS)
    (bind₁ bind₂ : String → Except GoError OpenAIRequest) (body₁ body₂ : String)
    (r₁ r₂ : OpenAIRequest)
    (hb₁ : bind₁ body₁ = Except.ok r₁) (hb₂ : bind₂ body₂ = Except.ok r₂) :
    (invocations (completionsHandler os₁ bind₁ body₁).1).map
          (fun c => (c.Args[0]?, c.Args[1]?)) =
        [(some "-m", some ("./models/" ++ r₁.Model ++ "/tiny-vicuna-1b.q2_k.gguf"))] ∧
      ((invocations (completionsHandler os₁ bind₁ body₁).1).map (fun c => c.Args[1]?) =
          (invocations (completionsHandler os₂ bind₂ body₂).1).map (fun c => c.Args[1]?) ↔
        r₁.Model = r₂.Model) ∧
      (∀ env : OpenAIResponse,
        (completionsHandler os₁ bind₁ body₁).2.obj = JSONBody.response env →
          env.Model = r₁.Model) ∧
      (∀ p ∈ started (completionsHandler os₁ bind₁ body₁).1,
        p.Argv[1]? = some "-m" ∧
          p.Argv[2]? = some ("./models/" ++ r₁.Model ++ "/tiny-vicuna-1b.q2_k.gguf")) ∧
      (∀ p₁ ∈ started (completionsHandler os₁ bind₁ body₁).1,
        ∀ p₂ ∈ started (completionsHandler os₂ bind₂ body₂).1,
          (p₁.Argv[2]? = p₂.Argv[2]? ↔ r₁.Model = r₂.Model)) := by
  refine ⟨?_, ⟨?_, ?_⟩, ?_, ?_, ?_⟩
  · rw [handler_invocations os₁ bind₁ body₁ r₁ hb₁]
    rfl
  · rw [handler_invocations os₁ bind₁ body₁ r₁ hb₁, handler_invocations os₂ bind₂ body₂ r₂ hb₂]
    intro h
    simp only [inferenceCmd, Command, List.map_cons, List.map_nil, List.getElem?_cons_succ,
      List.getElem?_cons_zero, List.cons.injEq, Option.some.injEq, and_true] at h
    exact models_path_injective _ _ h
  · rw [handler_invocations os₁ bind₁ body₁ r₁ hb₁, handler_invocations os₂ bind₂ body₂ r₂ hb₂]
    intro h
    simp only [inferenceCmd, Command, h, List.map_cons, List.map_nil,
      List.getElem?_cons_succ, List.getElem?_cons_zero]
  · intro env henv
    cases hc : (os₁.CombinedOutput (inferenceCmd r₁.Prompt r₁.Model)).2 with
    | none =>
      rw [handler_generate_ok os₁ bind₁ body₁ r₁ hb₁ hc] at henv
      simp only [JSONBody.response.injEq] at henv
      rw [← henv]
    | some e =>
      rw [handler_generate_error os₁ bind₁ body₁ r₁ e hb₁ hc] at henv
      simp at henv
  · intro p hp
    rw [handler_started_argv os₁ bind₁ body₁ r₁ hb₁ p hp]
    exact ⟨rfl, rfl⟩
  · intro p₁ hp₁ p₂ hp₂
    rw [handler_started_argv os₁ bind₁ body₁ r₁ hb₁ p₁ hp₁,
      handler_started_argv os₂ bind₂ body₂ r₂ hb₂ p₂ hp₂]
    constructor
    · intro h
      simp only [List.getElem?_cons_succ, List.getElem?_cons_zero, Option.some.injEq] at h
      exact models_path_injective _ _ h
    · intro h
      rw [h]
      rfl

theorem C4_model_path_from_request_witness :
    (invocations (completionsHandler osGood bindSample "A").1).map
          (fun c => (c.Args[0]?, c.Args[1]?)) =
        [(some "-m", some ("./models/" ++ requestA.Model ++ "/tiny-vicuna-1b.q2_k.gguf"))] ∧
      ((invocations (completionsHandler osGood bindSample "A").1).map (fun c => c.Args[1]?) =
          (invocations (completionsHandler osFailing bindSample "B").1).map
            (fun c => c.Args[1]?) ↔
        requestA.Model = requestB.Model) ∧
      (∀ env : OpenAIResponse,
        (completionsHandler osGood bindSample "A").2.obj = JSONBody.response env →
          env.Model = requestA.Model) ∧
      (∀ p ∈ started (completionsHandler osGood bindSample "A").1,
        p.Argv[1]? = some "-m" ∧
          p.Argv[2]? = some ("./models/" ++ requestA.Model ++ "/tiny-vicuna-1b.q2_k.gguf")) ∧
      (∀ p₁ ∈ started (completionsHandler osGood bindSample "A").1,
        ∀ p₂ ∈ started (completionsHandler osFailing bindSample "B").1,
          (p₁.Argv[2]? = p₂.Argv[2]? ↔ requestA.Model = requestB.Model)) :=
  C4_model_path_from_request osGood osFailing bindSample bindSample "A" "B" requestA requestB
    (by decide) (by decide)

/-- C5: two well-formed requests with the same model and prompt hand the same
command to `os/exec` whatever their `max_tokens` and `temperature` are, and in
every command the argument list ends "--temp", "0.7", "-n", "256"; the
processes started for them have the same argument vector, which ends the same
way, and in one world the same processes are started. -/
theorem C5_sampling_fields_not_forwarded (os₁ os₂ : OS)
    (bind₁ bind₂ : String → Except GoError OpenAIRequest) (body₁ body₂ : String)
    (r₁ r₂ : OpenAIRequest)
    (hb₁ : bind₁ body₁ = Except.ok r₁) (hb₂ : bind₂ body₂ = Except.ok r₂)
    (hm : r₁.Model = r₂.Model) (hp : r₁.Prompt = r₂.Prompt) :
    invocations (completionsHandler os₁ bind₁ body₁).1 =
        invocations (completionsHandler os₂ bind₂ body₂).1 ∧
      (∀ c ∈ invocations (completionsHandler os₁ bind₁ body₁).1,
        c.Args.length = 8 ∧ c.Args[4]? = some "--temp" ∧ c.Args[5]? = some "0.7" ∧
          c.Args[6]? = some "-n" ∧ c.Args[7]? = some "256") ∧
      (∀ p₁ ∈ started (completionsHandler os₁ bind₁ body₁).1,
        ∀ p₂ ∈ started (completionsHandler os₂ bind₂ body₂).1, p₁.Argv = p₂.Argv) ∧
      (∀ p ∈ started (completionsHandler os₁ bind₁ body₁).1,
        p.Argv.length = 9 ∧ p.Argv[5]? = some "--temp" ∧ p.Argv[6]? = some "0.7" ∧
          p.Argv[7]? = some "-n" ∧ p.Argv[8]? = some "256") ∧
      started (completionsHandler os₁ bind₁ body₁).1 =
        started (completionsHandler os₁ bind₂ body₂).1 := by
  refine ⟨?_, ?_, ?_, ?_, ?_⟩
  · rw [handler_invocations os₁ bind₁ body₁ r₁ hb₁, handler_invocations os₂ bind₂ body₂ r₂ hb₂,
      hm, hp]
  · rw [handler_invocations os₁ bind₁ body₁ r₁ hb₁]
    intro c hc
    rw [List.mem_singleton] at hc
    subst hc
    exact ⟨rfl, rfl, rfl, rfl, rfl⟩
  · intro p₁ hp₁ p₂ hp₂
    rw [handler_started_argv os₁ bind₁ body₁ r₁ hb₁ p₁ hp₁,
      handler_started_argv os₂ bind₂ body₂ r₂ hb₂ p₂ hp₂, hm, hp]
  · intro p hp'
    rw [handler_started_argv os₁ bind₁ body₁ r₁ hb₁ p hp']
    exact ⟨rfl, rfl, rfl, rfl, rfl⟩
  · rw [handler_started os₁ bind₁ body₁ r₁ hb₁, handler_started os₁ bind₂ body₂ r₂ hb₂, hm, hp]

theorem C5_sampling_fields_not_forwarded_witness :
    (requestA.MaxTokens ≠ requestB.MaxTokens ∧ requestA.Temperature ≠ requestB.Temperature) ∧
      invocations (completionsHandler osGood bindSample "A").1 =
        invocations (completionsHandler osGood bindSample "B").1 ∧
      (∀ c ∈ invocations (completionsHandler osGood bindSample "A").1,
        c.Args.length = 8 ∧ c.Args[4]? = some "--temp" ∧ c.Args[5]? = some "0.7" ∧
          c.Args[6]? = some "-n" ∧ c.Args[7]? = some "256") ∧
      (∀ p₁ ∈ started (completionsHandler osGood bindSample "A").1,
        ∀ p₂ ∈ started (completionsHandler osGood bindSample "B").1, p₁.Argv = p₂.Argv) ∧
      (∀ p ∈ started (completionsHandler osGood bindSample "A").1,
        p.Argv.length = 9 ∧ p.Argv[5]? = some "--temp" ∧ p.Argv[6]? = some "0.7" ∧
          p.Argv[7]? = some "-n" ∧ p.Argv[8]? = some "256") ∧
      started (completionsHandler osGood bindSample "A").1 =
        started (completionsHandler osGood bindSample "B").1 :=
  ⟨by decide,
    C5_sampling_fields_not_forwarded osGood osGood bindSample bindSample "A" "B"
      requestA requestB (by decide) (by decide) (by decide) (by decide)⟩

/-- C6: every response with status 200 carries a completion envelope whose
usage fields `prompt_tokens`, `completion_tokens` and `total_tokens` are 0,
whatever the request and the subprocess output are. -/
theorem C6_usage_always_zero (os : OS) (bind : String → Except GoError OpenAIRequest)
    (body : String) (h : (completionsHandler os bind body).2.code = 200) :
    ∃ env : OpenAIResponse,
      (completionsHandler os bind body).2.obj = JSONBody.response env ∧
      env.Usage.PromptTokens = 0 ∧ env.Usage.CompletionTokens = 0 ∧
      env.Usage.TotalTokens = 0 := by
  obtain ⟨r, hb, hc⟩ := handler_code_ok os bind body h
  rw [handler_generate_ok os bind body r hb hc]
  exact ⟨_, rfl, rfl, rfl, rfl⟩

theorem C6_usage_always_zero_witness :
    ∃ env : OpenAIResponse,
      (completionsHandler osGood bindSample "B").2.obj = JSONBody.response env ∧
      env.Usage.PromptTokens = 0 ∧ env.Usage.CompletionTokens = 0 ∧
      env.Usage.TotalTokens = 0 :=
  C6_usage_always_zero osGood bindSample "B" (by decide)

/-- C7: every response with status 200 carries a completion envelope whose id
is "chatcmpl-123", whose created is 1234567890 and whose object is
"text_completion", and whose model is the model field of the request the body
bound to. -/
theorem C7_identifying_fields_constant (os : OS)
    (bind : String → Except GoError OpenAIRequest) (body : String)
    (h : (completionsHandler os bind body).2.code = 200) :
    ∃ (env : OpenAIResponse) (r : OpenAIRequest),
      (completionsHandler os bind body).2.obj = JSONBody.response env ∧
      bind body = Except.ok r ∧
      env.ID = "chatcmpl-123" ∧ env.Created = 1234567890 ∧ env.Object = "text_completion" ∧
      env.Model = r.Model := by
  obtain ⟨r, hb, hc⟩ := handler_code_ok os bind body h
  rw [handler_generate_ok os bind body r hb hc]
  exact ⟨_, r, rfl, hb, rfl, rfl, rfl, rfl⟩

theorem C7_identifying_fields_constant_witness :
    ∃ (env : OpenAIResponse) (r : OpenAIRequest),
      (completionsHandler osGood bindSample "C").2.obj = JSONBody.response env ∧
      bindSample "C" = Except.ok r ∧
      env.ID = "chatcmpl-123" ∧ env.Created = 1234567890 ∧ env.Object = "text_completion" ∧
      env.Model = r.Model :=
  C7_identifying_fields_constant osGood bindSample "C" (by decide)

/-! ## Startup and the model provisioner -/

/-- C8: `loadModel` returns an error exactly when the credential is empty or
the download subprocess returns an error; `main` starts listening (on ":8000")
exactly when the credential is non-empty and the download subprocess exits
zero, and otherwise its trace is that of `loadModel` followed by the fatal log
line, with no listening step; with an empty credential no command is handed to
`os/exec` and no process is started. -/
theorem C8_startup_gate (os : OS) :
    (∀ m : String, (loadModel os m).2 ≠ none ↔
        (os.Getenv "HUGGINGFACE_TOKEN" = "" ∨
          (os.CombinedOutput (downloadCmd os m (os.Getenv "HUGGINGFACE_TOKEN"))).2 ≠ none)) ∧
      (listens (main os) = [":8000"] ↔
        (os.Getenv "HUGGINGFACE_TOKEN" ≠ "" ∧
          (os.CombinedOutput (downloadCmd os "afrideva/Tiny-Vicuna-1B-GGUF"
            (os.Getenv "HUGGINGFACE_TOKEN"))).2 = none)) ∧
      (∀ e : GoError, (loadModel os "afrideva/Tiny-Vicuna-1B-GGUF").2 = some e →
        main os = (loadModel os "afrideva/Tiny-Vicuna-1B-GGUF").1 ++
            [Event.logFatal ("Failed to load model:" ++ e.msg)] ∧
          listens (main os) = []) ∧
      (os.Getenv "HUGGINGFACE_TOKEN" = "" →
        invocations (main os) = [] ∧ (∀ m : String, invocations (loadModel os m).1 = []) ∧
          started (main os) = [] ∧ ∀ m : String, started (loadModel os m).1 = []) := by
  have hload : ∀ m : String, (loadModel os m).2 ≠ none ↔
      (os.Getenv "HUGGINGFACE_TOKEN" = "" ∨
        (os.CombinedOutput (downloadCmd os m (os.Getenv "HUGGINGFACE_TOKEN"))).2 ≠ none) := by
    intro m
    by_cases ht : os.Getenv "HUGGINGFACE_TOKEN" = ""
    · rw [loadModel_no_token os m ht]
      simp [ht]
    · cases hd : (os.CombinedOutput (downloadCmd os m (os.Getenv "HUGGINGFACE_TOKEN"))).2 with
      | none =>
        rw [loadModel_download_ok os m ht hd]
        simp [ht]
      | some e =>
        rw [loadModel_download_error os m e ht hd]
        simp
  have hfatal : ∀ e : GoError, (loadModel os "afrideva/Tiny-Vicuna-1B-GGUF").2 = some e →
      main os = (loadModel os "afrideva/Tiny-Vicuna-1B-GGUF").1 ++
          [Event.logFatal ("Failed to load model:" ++ e.msg)] ∧
        listens (main os) = [] := by
    intro e he
    have hm : main os = (loadModel os "afrideva/Tiny-Vicuna-1B-GGUF").1 ++
        [Event.logFatal ("Failed to load model:" ++ e.msg)] := by
      simp only [main, he]
    refine ⟨hm, ?_⟩
    rw [hm, listens_append, loadModel_listens]
    rfl
  refine ⟨hload, ?_, hfatal, ?_⟩
  · constructor
    · intro hl
      by_cases ht : os.Getenv "HUGGINGFACE_TOKEN" = ""
      · have := (hfatal _ (by rw [loadModel_no_token os _ ht])).2
        rw [this] at hl
        simp at hl
      · refine ⟨ht, ?_⟩
        cases hd : (os.CombinedOutput (downloadCmd os "afrideva/Tiny-Vicuna-1B-GGUF"
            (os.Getenv "HUGGINGFACE_TOKEN"))).2 with
        | none => rfl
        | some e' =>
          have := (hfatal e' (by rw [loadModel_download_error os _ e' ht hd])).2
          rw [this] at hl
          simp at hl
    · rintro ⟨ht, hd⟩
      have hm : main os = (loadModel os "afrideva/Tiny-Vicuna-1B-GGUF").1 ++
          [Event.println ["Starting OpenAI-compatible API on port 8000..."],
            Event.run ":8000"] := by
        simp only [main, loadModel_download_ok os _ ht hd]
      rw [hm, listens_append, loadModel_listens]
      rfl
  · intro ht
    refine ⟨?_, ?_, ?_, ?_⟩
    · simp only [main, loadModel_no_token os _ ht]
      rfl
    · intro m
      rw [loadModel_no_token os m ht]
      rfl
    · simp only [main, loadModel_no_token os _ ht]
      rfl
    · intro m
      rw [loadModel_no_token os m ht]
      rfl

theorem C8_startup_gate_witness :
    listens (main osGood) = [":8000"] ∧
      (main osNoToken =
          [Event.println ["Downloading model:", "afrideva/Tiny-Vicuna-1B-GGUF"],
            Event.logFatal "Failed to load model:HUGGINGFACE_TOKEN is not set"] ∧
        listens (main osNoToken) = []) ∧
      (main osFailing = (loadModel osFailing "afrideva/Tiny-Vicuna-1B-GGUF").1 ++
            [Event.logFatal ("Failed to load model:" ++ (GoError.mk "exit status 1").msg)] ∧
        listens (main osFailing) = []) ∧
      invocations (main osNoToken) = [] ∧
      started (main osNoToken) = [] :=
  ⟨(C8_startup_gate osGood).2.1.mpr ⟨by decide, by decide⟩,
    (C8_startup_gate osNoToken).2.2.1 ⟨"HUGGINGFACE_TOKEN is not set"⟩ (by decide),
    (C8_startup_gate osFailing).2.2.1 ⟨"exit status 1"⟩ (by decide),
    ((C8_startup_gate osNoToken).2.2.2 (by decide)).1,
    ((C8_startup_gate osNoToken).2.2.2 (by decide)).2.2.1⟩

/-- C9, as stated, fails: with an `HF_TOKEN` entry already in the process
environment, the download tool is started with an environment that is not the
process environment followed by "HF_TOKEN=" ++ credential, because `os/exec`
keeps only the last entry of each key. -/
theorem C9_download_environment_counterexample :
    osDup.Getenv "HUGGINGFACE_TOKEN" = "hf_secret" ∧
      osDup.Environ ++ ["HF_TOKEN=" ++ osDup.Getenv "HUGGINGFACE_TOKEN"] =
        ["PATH=/usr/bin", "HF_TOKEN=old", "HUGGINGFACE_TOKEN=hf_secret",
          "HF_TOKEN=hf_secret"] ∧
      (started (loadModel osDup "afrideva/Tiny-Vicuna-1B-GGUF").1).map Process.Envv =
        [["PATH=/usr/bin", "HUGGINGFACE_TOKEN=hf_secret", "HF_TOKEN=hf_secret"]] ∧
      (started (loadModel osDup "afrideva/Tiny-Vicuna-1B-GGUF").1).map Process.Envv ≠
        [osDup.Environ ++ ["HF_TOKEN=" ++ osDup.Getenv "HUGGINGFACE_TOKEN"]] := by
  decide

/-- C9, amended: for every model identifier `m` and non-empty credential `t`,
`loadModel` hands `os/exec` one command, the download tool with the arguments
"download", `m`, "--local-dir", "./models/" ++ `m` and with `Env` equal to the
process environment followed by "HF_TOKEN=" ++ `t`.  Every process started
for it has these arguments after the program name and that environment with
only the last entry of each key kept: a part of the process environment
without any `HF_TOKEN` entry, followed by "HF_TOKEN=" ++ `t`; the part is
the whole process environment when that has no `HF_TOKEN` entry and nothing
for `dedupEnv` to remove.  At most one process is started, and one is started
exactly when the tool is found and neither its path, `m` nor an environment
entry holds a NUL. -/
theorem C9_download_invocation (os : OS) (m : String)
    (h : os.Getenv "HUGGINGFACE_TOKEN" ≠ "") :
    invocations (loadModel os m).1 =
        [{ Name := "huggingface-cli",
           Args := ["download", m, "--local-dir", "./models/" ++ m],
           Env := some (os.Environ ++ ["HF_TOKEN=" ++ os.Getenv "HUGGINGFACE_TOKEN"]) }] ∧
      (∀ p ∈ started (loadModel os m).1,
        p.Argv = ["huggingface-cli", "download", m, "--local-dir", "./models/" ++ m] ∧
        p.Envv =
          (dedupEnv (os.Environ ++ ["HF_TOKEN=" ++ os.Getenv "HUGGINGFACE_TOKEN"])).1 ∧
        ∃ kept : List String,
          p.Envv = kept ++ ["HF_TOKEN=" ++ os.Getenv "HUGGINGFACE_TOKEN"] ∧
          kept.Sublist os.Environ ∧
          (∀ kv ∈ kept, envKey kv ≠ some "HF_TOKEN") ∧
          ((dedupEnv os.Environ).1 = os.Environ →
            (∀ kv ∈ os.Environ, envKey kv ≠ some "HF_TOKEN") → kept = os.Environ)) ∧
      (started (loadModel os m).1 = [] ∨ ∃ p, started (loadModel os m).1 = [p]) ∧
      ((∃ p, started (loadModel os m).1 = [p]) ↔
        (∃ path, os.LookPath "huggingface-cli" = Except.ok path ∧ hasNUL path = false) ∧
          hasNUL m = false ∧
          (os.Environ ++ ["HF_TOKEN=" ++ os.Getenv "HUGGINGFACE_TOKEN"]).any hasNUL = false) := by
  refine ⟨loadModel_invocations os m h, ?_, ?_, ?_⟩
  · intro p hp
    rw [loadModel_started os m h] at hp
    obtain ⟨_, hd, _, hargv, henv⟩ := start_ok os _ p (execCmd_started_mem os _ p hp)
    have hnul : (os.Environ ++ ["HF_TOKEN=" ++ os.Getenv "HUGGINGFACE_TOKEN"]).any hasNUL
        = false := (dedupEnv_snd _).mp hd
    have hentry : hasNUL ("HF_TOKEN=" ++ os.Getenv "HUGGINGFACE_TOKEN") = false := by
      rw [List.any_eq_false] at hnul
      have := hnul ("HF_TOKEN=" ++ os.Getenv "HUGGINGFACE_TOKEN") (by simp)
      simpa using this
    have hdec := dedupEnv_append_entry os.Environ _ "HF_TOKEN" hentry
      (envKey_hf_token (os.Getenv "HUGGINGFACE_TOKEN"))
    have henv' : p.Envv =
        (dedupEnv (os.Environ ++ ["HF_TOKEN=" ++ os.Getenv "HUGGINGFACE_TOKEN"])).1 := henv
    refine ⟨hargv, henv', (dedupEnvRev os.Environ.reverse ["HF_TOKEN"]).1.reverse, ?_, ?_, ?_, ?_⟩
    · rw [henv', hdec]
    · have := (dedupEnvRev_sublist os.Environ.reverse ["HF_TOKEN"]).reverse
      rwa [List.reverse_reverse] at this
    · intro kv hkv hk
      have := dedupEnvRev_key os.Environ.reverse ["HF_TOKEN"] kv "HF_TOKEN"
        (List.mem_reverse.mp hkv) hk
      simp at this
    · intro hsame hno
      have hsaw : dedupEnvRev os.Environ.reverse ["HF_TOKEN"] =
          dedupEnvRev os.Environ.reverse [] := by
        apply dedupEnvRev_saw "HF_TOKEN"
        · intro kv hkv
          exact hno kv (List.mem_reverse.mp hkv)
        · intro x hx
          simp [hx]
      rw [hsaw]
      exact hsame
  · rw [loadModel_started os m h]
    exact execCmd_started_cases os _
  · rw [loadModel_started os m h, execCmd_started_iff, downloadCmd_any_nul]
    rfl

theorem C9_download_invocation_witness :
    osDup.Getenv "HUGGINGFACE_TOKEN" ≠ "" ∧
      started (loadModel osDup "afrideva/Tiny-Vicuna-1B-GGUF").1 =
        [{ Path := "/usr/bin/huggingface-cli",
           Argv := ["huggingface-cli", "download", "afrideva/Tiny-Vicuna-1B-GGUF",
             "--local-dir", "./models/afrideva/Tiny-Vicuna-1B-GGUF"],
           Envv := ["PATH=/usr/bin", "HUGGINGFACE_TOKEN=hf_secret", "HF_TOKEN=hf_secret"] }] ∧
      (invocations (loadModel osDup "afrideva/Tiny-Vicuna-1B-GGUF").1 =
        [{ Name := "huggingface-cli",
           Args := ["download", "afrideva/Tiny-Vicuna-1B-GGUF", "--local-dir",
             "./models/" ++ "afrideva/Tiny-Vicuna-1B-GGUF"],
           Env := some (osDup.Environ ++ ["HF_TOKEN=" ++ osDup.Getenv "HUGGINGFACE_TOKEN"]) }] ∧
      (∀ p ∈ started (loadModel osDup "afrideva/Tiny-Vicuna-1B-GGUF").1,
        p.Argv = ["huggingface-cli", "download", "afrideva/Tiny-Vicuna-1B-GGUF", "--local-dir",
            "./models/" ++ "afrideva/Tiny-Vicuna-1B-GGUF"] ∧
        p.Envv =
          (dedupEnv (osDup.Environ ++ ["HF_TOKEN=" ++ osDup.Getenv "HUGGINGFACE_TOKEN"])).1 ∧
        ∃ kept : List String,
          p.Envv = kept ++ ["HF_TOKEN=" ++ osDup.Getenv "HUGGINGFACE_TOKEN"] ∧
          kept.Sublist osDup.Environ ∧
          (∀ kv ∈ kept, envKey kv ≠ some "HF_TOKEN") ∧
          ((dedupEnv osDup.Environ).1 = osDup.Environ →
            (∀ kv ∈ osDup.Environ, envKey kv ≠ some "HF_TOKEN") → kept = osDup.Environ)) ∧
      (started (loadModel osDup "afrideva/Tiny-Vicuna-1B-GGUF").1 = [] ∨
        ∃ p, started (loadModel osDup "afrideva/Tiny-Vicuna-1B-GGUF").1 = [p]) ∧
      ((∃ p, started (loadModel osDup "afrideva/Tiny-Vicuna-1B-GGUF").1 = [p]) ↔
        (∃ path, osDup.LookPath "huggingface-cli" = Except.ok path ∧ hasNUL path = false) ∧
          hasNUL "afrideva/Tiny-Vicuna-1B-GGUF" = false ∧
          (osDup.Environ ++ ["HF_TOKEN=" ++ osDup.Getenv "HUGGINGFACE_TOKEN"]).any hasNUL
            = false)) :=
  ⟨by decide, by decide,
    C9_download_invocation osDup "afrideva/Tiny-Vicuna-1B-GGUF" (by decide)⟩

/-! ## The prompt as an argument -/

/-- C10, as stated, fails: a prompt that holds a NUL character (the JSON
string "a\u0000b") makes `os/exec` refuse the command, so no inference
subprocess is started and the handler answers 500, where the same world starts
one for an ordinary prompt. -/
theorem C10_prompt_counterexample :
    bindNUL "N" = Except.ok requestNUL ∧
      requestNUL.Prompt.data = ['a', Char.ofNat 0, 'b'] ∧
      started (generateText osGood requestNUL.Prompt requestNUL.Model).1 = [] ∧
      started (completionsHandler osGood bindNUL "N").1 = [] ∧
      (completionsHandler osGood bindNUL "N").2 =
        { code := 500, obj := JSONBody.H [("error", "Failed to generate text")] } ∧
      (started (completionsHandler osGood bindNUL "A").1).map Process.Argv =
        [["llama-cli", "-m", "./models/afrideva/Tiny-Vicuna-1B-GGUF/tiny-vicuna-1b.q2_k.gguf",
          "-p", "Say hello", "--temp", "0.7", "-n", "256"]] := by
  decide

/-- C10, amended: for every prompt `p`, `generateText` hands `os/exec` exactly
one command, with the 8 arguments "-m", path, "-p", `p`, "--temp", "0.7",
"-n", "256": the prompt is the element at position 3, unchanged, and the
program name, the environment and every other argument position are the same
for any other prompt; the handler runs `generateText` on the bound request's
prompt.  Every process started has the program name followed by exactly these
8 arguments.  At most one process is started, and one is started exactly when
the tool is found and neither its path, the model name, the prompt nor an
environment entry holds a NUL: a prompt with a NUL starts no process.  For two
prompts without a NUL the processes started in one world agree in path,
environment and every argument position but the prompt's. -/
theorem C10_prompt_is_one_argument (os : OS) (p m : String) :
    (invocations (generateText os p m).1).map Cmd.Args =
        [["-m", "./models/" ++ m ++ "/tiny-vicuna-1b.q2_k.gguf", "-p", p,
          "--temp", "0.7", "-n", "256"]] ∧
      (∀ c ∈ invocations (generateText os p m).1, c.Args.length = 8 ∧ c.Args[3]? = some p) ∧
      (∀ (os' : OS) (p' : String) (i : Nat), i ≠ 3 →
        (invocations (generateText os p m).1).map (fun c => (c.Name, c.Env, c.Args[i]?)) =
          (invocations (generateText os' p' m).1).map (fun c => (c.Name, c.Env, c.Args[i]?))) ∧
      (∀ (bind : String → Except GoError OpenAIRequest) (body : String) (r : OpenAIRequest),
        bind body = Except.ok r →
          invocations (completionsHandler os bind body).1 =
              invocations (generateText os r.Prompt r.Model).1 ∧
            started (completionsHandler os bind body).1 =
              started (generateText os r.Prompt r.Model).1) ∧
      (∀ q ∈ started (generateText os p m).1,
        q.Argv = ["llama-cli", "-m", "./models/" ++ m ++ "/tiny-vicuna-1b.q2_k.gguf", "-p", p,
          "--temp", "0.7", "-n", "256"]) ∧
      (started (generateText os p m).1 = [] ∨ ∃ q, started (generateText os p m).1 = [q]) ∧
      ((∃ q, started (generateText os p m).1 = [q]) ↔
        (∃ path, os.LookPath "llama-cli" = Except.ok path ∧ hasNUL path = false) ∧
          (hasNUL m = false ∧ hasNUL p = false) ∧ os.Environ.any hasNUL = false) ∧
      (hasNUL p = true → started (generateText os p m).1 = []) ∧
      (∀ (p' : String) (i : Nat), hasNUL p = false → hasNUL p' = false → i ≠ 4 →
        (started (generateText os p m).1).map (fun q => (q.Path, q.Envv, q.Argv[i]?)) =
          (started (generateText os p' m).1).map (fun q => (q.Path, q.Envv, q.Argv[i]?))) := by
  have hiff : ∀ x : String, (∃ q, started (generateText os x m).1 = [q]) ↔
      (∃ path, os.LookPath "llama-cli" = Except.ok path ∧ hasNUL path = false) ∧
        (hasNUL m = false ∧ hasNUL x = false) ∧ os.Environ.any hasNUL = false := by
    intro x
    rw [generateText_started, execCmd_started_iff, inferenceCmd_any_nul, Bool.or_eq_false_iff]
    rfl
  have hargv : ∀ x : String, ∀ q ∈ started (generateText os x m).1,
      q.Argv = ["llama-cli", "-m", "./models/" ++ m ++ "/tiny-vicuna-1b.q2_k.gguf", "-p", x,
        "--temp", "0.7", "-n", "256"] ∧
      os.LookPath "llama-cli" = Except.ok q.Path ∧ q.Envv = (dedupEnv os.Environ).1 := by
    intro x q hq
    rw [generateText_started] at hq
    obtain ⟨hl, _, _, ha, he⟩ := start_ok os _ q (execCmd_started_mem os _ q hq)
    exact ⟨ha, hl, he⟩
  have hcases : ∀ x : String, started (generateText os x m).1 = [] ∨
      ∃ q, started (generateText os x m).1 = [q] := by
    intro x
    rw [generateText_started]
    exact execCmd_started_cases os _
  refine ⟨?_, ?_, ?_, ?_, fun q hq => (hargv p q hq).1, hcases p, hiff p, ?_, ?_⟩
  · rw [generateText_invocations]
    rfl
  · rw [generateText_invocations]
    intro c hc
    rw [List.mem_singleton] at hc
    subst hc
    exact ⟨rfl, rfl⟩
  · intro os' p' i hi
    rw [generateText_invocations, generateText_invocations]
    match i, hi with
    | 0, _ => rfl
    | 1, _ => rfl
    | 2, _ => rfl
    | 3, h => exact absurd rfl h
    | n + 4, _ => rfl
  · intro bind body r hb
    rw [handler_invocations os bind body r hb, generateText_invocations,
      handler_started os bind body r hb, generateText_started]
    exact ⟨rfl, rfl⟩
  · intro hp
    rcases hcases p with h0 | h1
    · exact h0
    · have := ((hiff p).mp h1).2.1.2
      rw [hp] at this
      cases this
  · intro p' i hp hp' hi
    rcases hcases p with h0 | ⟨q, hq⟩
    · rcases hcases p' with h0' | h1'
      · rw [h0, h0']
      · have hc := (hiff p').mp h1'
        have := (hiff p).mpr ⟨hc.1, ⟨hc.2.1.1, hp⟩, hc.2.2⟩
        rw [h0] at this
        obtain ⟨q, hq⟩ := this
        cases hq
    · have hc := (hiff p).mp ⟨q, hq⟩
      obtain ⟨q', hq'⟩ := (hiff p').mpr ⟨hc.1, ⟨hc.2.1.1, hp'⟩, hc.2.2⟩
      obtain ⟨ha, hl, he⟩ := hargv p q (by rw [hq]; exact List.mem_singleton.mpr rfl)
      obtain ⟨ha', hl', he'⟩ := hargv p' q' (by rw [hq']; exact List.mem_singleton.mpr rfl)
      have hpath : q.Path = q'.Path := by
        rw [hl] at hl'
        exact Except.ok.inj hl'
      rw [hq, hq']
      simp only [List.map_cons, List.map_nil, List.cons.injEq, and_true, Prod.mk.injEq]
      refine ⟨hpath, by rw [he, he'], ?_⟩
      rw [ha, ha']
      match i, hi with
      | 0, _ => rfl
      | 1, _ => rfl
      | 2, _ => rfl
      | 3, _ => rfl
      | 4, h => exact absurd rfl h
      | n + 5, _ => rfl

theorem C10_prompt_is_one_argument_witness :
    (invocations (generateText osGood "-m /etc/passwd --temp 2 -n 9 \"x\"\n y" "M").1).map
        Cmd.Args =
      [["-m", "./models/M/tiny-vicuna-1b.q2_k.gguf", "-p",
        "-m /etc/passwd --temp 2 -n 9 \"x\"\n y", "--temp", "0.7", "-n", "256"]] ∧
      (invocations (generateText osGood "" "M").1).map Cmd.Args =
        [["-m", "./models/M/tiny-vicuna-1b.q2_k.gguf", "-p", "", "--temp", "0.7", "-n", "256"]] ∧
      (∃ q, started (generateText osGood "" "M").1 = [q]) ∧
      started (generateText osGood "a\x00b" "M").1 = [] ∧
      (started (generateText osGood "-m /etc/passwd --temp 2 -n 9 \"x\"\n y" "M").1).map
          Process.Argv =
        [["llama-cli", "-m", "./models/M/tiny-vicuna-1b.q2_k.gguf", "-p",
          "-m /etc/passwd --temp 2 -n 9 \"x\"\n y", "--temp", "0.7", "-n", "256"]] :=
  ⟨(C10_prompt_is_one_argument osGood "-m /etc/passwd --temp 2 -n 9 \"x\"\n y" "M").1,
    (C10_prompt_is_one_argument osGood "" "M").1,
    (C10_prompt_is_one_argument osGood "" "M").2.2.2.2.2.2.1.mpr
      ⟨⟨"/usr/bin/llama-cli", by decide, by decide⟩, ⟨by decide, by decide⟩, by decide⟩,
    (C10_prompt_is_one_argument osGood "a\x00b" "M").2.2.2.2.2.2.2.1 (by decide),
    by decide⟩

end OpenAIServer
